import Mathlib

/-!
Verification of the g3proxy upstream egress subsystem and of the g3bench h3
argument handling, shallowly embedded from the Rust sources under
g3proxy/src/escape, g3proxy/src/stat/metrics and g3bench/src/target/h3.
-/

/-- A transport upstream address, host (or IP) plus port, modelling
g3_types::net::UpstreamAddr as the escapers use it. -/
structure UpstreamAddr where
  host : String
  port : Nat
  deriving DecidableEq, Repr

/-- One clap argument declaration of the h3 benchmark target: its name and the
argument names it conflicts with, as registered by add_h3_args in
g3bench/src/target/h3/opts.rs. -/
structure ArgSpec where
  name : String
  conflicts_with : List String
  deriving DecidableEq, Repr

/-- The argument set registered by add_h3_args: uri, connection-pool
(declared conflicting with no-multiplex), method, local-address, no-multiplex
(declared conflicting with connection-pool), ok-status, timeout,
connect-timeout. -/
def add_h3_args : List ArgSpec :=
  [⟨"uri", []⟩,
   ⟨"connection-pool", ["no-multiplex"]⟩,
   ⟨"method", []⟩,
   ⟨"local-address", []⟩,
   ⟨"no-multiplex", ["connection-pool"]⟩,
   ⟨"ok-status", []⟩,
   ⟨"timeout", []⟩,
   ⟨"connect-timeout", []⟩]

/-- Clap's conflict rule: a command line, given as the set of argument names
present on it, is rejected when some present argument declares a conflict with
another present argument. -/
def clap_conflict_rejected (specs : List ArgSpec) (present : List String) : Bool :=
  specs.any fun s =>
    present.contains s.name && s.conflicts_with.any fun c => present.contains c

/-- The url crate's parsed URL, reduced to the scheme component, which is all
that parse_h3_args inspects after a successful parse. -/
structure Url where
  scheme : String
  deriving DecidableEq, Repr

/-- The clap matches that parse_h3_args reads: one slot per registered
argument, holding the parsed value when the argument was supplied. -/
structure H3Matches where
  uri : Option Url
  connection_pool : Option Nat
  method : Option String
  local_address : Option String
  no_multiplex : Bool
  ok_status : Option Nat
  timeout : Option Nat
  connect_timeout : Option Nat
  deriving DecidableEq, Repr

/-- BenchH3Args, reduced to the fields parse_h3_args assigns (durations kept in
seconds as naturals). -/
structure BenchH3Args where
  pool_size : Option Nat
  method : String
  target_url : Url
  bind : Option String
  no_multiplex : Bool
  ok_status : Option Nat
  timeout : Nat
  connect_timeout : Nat
  deriving DecidableEq, Repr

/-- BenchH3Args::new: defaults with pool_size = None, method GET, no
multiplex disabled, timeout 30s, connect timeout 15s. -/
def BenchH3Args.new (url : Url) : BenchH3Args :=
  { pool_size := none
    method := "GET"
    target_url := url
    bind := none
    no_multiplex := false
    ok_status := none
    timeout := 30
    connect_timeout := 15 }

/-- parse_h3_args of g3bench/src/target/h3/opts.rs: require a target url, start
from the defaults, set pool_size only when connection-pool was supplied with a
value strictly greater than zero, copy the remaining options, and finally
require an http or https scheme. -/
def parse_h3_args (m : H3Matches) : Except String BenchH3Args :=
  match m.uri with
  | none => .error "no target url set"
  | some url =>
    let a := BenchH3Args.new url
    let a := match m.connection_pool with
      | some c => if c > 0 then { a with pool_size := some c } else a
      | none => a
    let a := match m.method with
      | some v => { a with method := v }
      | none => a
    let a := match m.local_address with
      | some ip => { a with bind := some ip }
      | none => a
    let a := if m.no_multiplex then { a with no_multiplex := true } else a
    let a := match m.ok_status with
      | some code => { a with ok_status := some code }
      | none => a
    let a := match m.timeout with
      | some t => { a with timeout := t }
      | none => a
    let a := match m.connect_timeout with
      | some t => { a with connect_timeout := t }
      | none => a
    if a.target_url.scheme = "http" ∨ a.target_url.scheme = "https" then .ok a
    else .error "unsupported target url"

/-- The h3 benchmark entry path: clap validates the command line (rejecting
declared conflicts) before parse_h3_args runs; a QUIC dial can only be
attempted once parsed arguments are in hand. -/
def h3_parse_command (present : List String) (m : H3Matches) :
    Except String BenchH3Args :=
  if clap_conflict_rejected add_h3_args present then .error "argument conflict"
  else parse_h3_args m

/-- The escaper-side connect error
(crate::module::tcp_connect::TcpConnectError), restricted to the variants the
embedded functions construct; causes are kept as strings. -/
inductive TcpConnectError
  | NegotiationWriteFailed (cause : String)
  | NegotiationReadFailed (cause : String)
  | NegotiationRejected (status : Nat)
  | NegotiationPeerTimeout
  | InternalTlsClientError (cause : String)
  | UpstreamTlsHandshakeFailed (cause : String)
  | UpstreamTlsHandshakeTimeout
  deriving DecidableEq, Repr

/-- Modelled from the spec: the TlsApplication tag of TLS handshake failure
records; the declaring module crate::log::escape::tls_handshake is not under
src, and the spec gives the tag set as ProxyLeg, OriginLeg and TcpStream. The
variant name TcpStream is also the one the source code under src passes
explicitly. -/
inductive TlsApplication
  | ProxyLeg
  | OriginLeg
  | TcpStream
  deriving DecidableEq, Repr

/-- A tokio BufReader over a byte stream, as the CONNECT negotiation returns
it: buffer holds the residual bytes already read past the response headers,
inner the bytes still readable from the underlying stream. -/
structure BufStream where
  buffer : List Nat
  inner : List Nat
  deriving DecidableEq, Repr

/-- tokio BufReader::into_inner: gives back the underlying stream; any
leftover data in the internal buffer is lost. -/
def BufStream.into_inner (b : BufStream) : List Nat := b.inner

/-- One crediting call on the read-side byte sinks: either
task_stats.add_read_bytes(n) or, for the user stat at index i,
io.tcp.add_in_bytes(n). -/
inductive CreditEvent
  | taskReadBytes (n : Nat)
  | userTcpInBytes (i : Nat) (n : Nat)
  deriving DecidableEq, Repr

/-- Total bytes a credit sequence adds to the task stats sink. -/
def creditTaskTotal : List CreditEvent → Nat
  | [] => 0
  | .taskReadBytes n :: es => n + creditTaskTotal es
  | .userTcpInBytes _ _ :: es => creditTaskTotal es

/-- Total bytes a credit sequence adds to the user stat sink at index i. -/
def creditUserTotal (i : Nat) : List CreditEvent → Nat
  | [] => 0
  | .taskReadBytes _ :: es => creditUserTotal i es
  | .userTcpInBytes j n :: es => (if j = i then n else 0) + creditUserTotal i es

/-- Whether a credit event targets the task stats sink. -/
def CreditEvent.isTask : CreditEvent → Bool
  | .taskReadBytes _ => true
  | .userTcpInBytes _ _ => false

/-- Whether a credit event targets the user stat sink at index i. -/
def CreditEvent.isUser (i : Nat) : CreditEvent → Bool
  | .taskReadBytes _ => false
  | .userTcpInBytes j _ => j = i

/-- One structured TLS handshake failure record
(EscapeLogForTlsHandshake), with the fields the source fills: task id, tls
name, tls peer and the tls application tag, plus the reason text taken from
the error passed to log. -/
structure EscapeLogForTlsHandshake where
  task_id : Nat
  tls_name : String
  tls_peer : UpstreamAddr
  tls_application : TlsApplication
  reason : String
  deriving DecidableEq, Repr

/-- Outcome of awaiting connector.connect() under
tokio::time::timeout(handshake_timeout, _): completed Ok, completed Err with a
peer-reported or verification cause, or timer expiry. -/
inductive HandshakeOutcome
  | ok
  | err (cause : String)
  | timedOut
  deriving DecidableEq, Repr

deriving instance DecidableEq for Except

/-- What a modelled http_connect_tls_connect_to call produces: the returned
result, the failure records emitted to the escape logger, the byte stream that
was handed to SslConnector (what the TLS engine will read), and the read-side
crediting calls the function performs before the handshake. -/
structure TlsConnectOutcome where
  result : Except TcpConnectError (List Nat)
  logs : List EscapeLogForTlsHandshake
  tls_input : List Nat
  credits_before_handshake : List CreditEvent
  deriving DecidableEq, Repr

/-- g3_http::connect::HttpConnectRequest, reduced to what the escapers drive:
the request target and configured append headers given to new, plus the
dynamically appended header lines. -/
structure HttpConnectRequest where
  upstream : UpstreamAddr
  append_headers : List String
  dyn_headers : List String
  deriving DecidableEq, Repr

/-- HttpConnectRequest::new starts with no dynamically appended headers. -/
def HttpConnectRequest.new (upstream : UpstreamAddr)
    (append_headers : List String) : HttpConnectRequest :=
  ⟨upstream, append_headers, []⟩

/-- HttpConnectRequest::append_dyn_header pushes one header line. -/
def HttpConnectRequest.append_dyn_header (req : HttpConnectRequest)
    (line : String) : HttpConnectRequest :=
  { req with dyn_headers := req.dyn_headers ++ [line] }

/-- Modelled from the spec:
crate::module::http_header::proxy_authorization_basic_pass is not under src;
per the wire format of section 4.D it renders the line
Proxy-Authorization: Basic b64(user:pass) from the raw user name. -/
def proxy_authorization_basic_pass (name : String) : String :=
  "Proxy-Authorization: Basic " ++ name

/-- The result of wrapping a negotiated buffered stream into a TCP connection:
the crediting calls performed during the wrap, then the bytes the returned
reader serves from memory first, then the bytes it will read from the
underlying socket afterwards. -/
structure TcpWrapResult where
  credits : List CreditEvent
  reader_buffer : List Nat
  reader_socket : List Nat
  deriving DecidableEq, Repr

namespace ProxyHttpEscaper

/-- The ProxyHttpEscaper config fields the http_connect code reads. -/
structure Config where
  pass_proxy_userid : Bool
  peer_negotiation_timeout : Nat
  http_connect_rsp_hdr_max_size : Nat
  append_http_headers : List String
  deriving DecidableEq, Repr

/-- Header construction of ProxyHttpEscaper::http_connect_tcp_connect_to:
build the CONNECT request from the upstream and the configured append
headers, then append the Basic Proxy-Authorization header exactly when
pass_proxy_userid is set and the task notes carry a raw user name. -/
def http_connect_build_request (cfg : Config) (upstream : UpstreamAddr)
    (raw_user_name : Option String) : HttpConnectRequest :=
  let req := HttpConnectRequest.new upstream cfg.append_http_headers
  if cfg.pass_proxy_userid then
    match raw_user_name with
    | some name => req.append_dyn_header (proxy_authorization_basic_pass name)
    | none => req
  else req

/-- ProxyHttpEscaper::timed_http_connect_tcp_connect_to wraps the whole of
http_connect_tcp_connect_to - which first dials the proxy via
tcp_new_connection and then performs the CONNECT request/response exchange -
in tokio::time::timeout(config.peer_negotiation_timeout, _), mapping timer
expiry to NegotiationPeerTimeout. dial_elapsed and exchange_elapsed are the
durations of the two stages of the awaited work; the timer fires when their
sum exceeds the budget. -/
def timed_http_connect_tcp_connect_to (cfg : Config)
    (dial_elapsed exchange_elapsed : Nat)
    (inner : Except TcpConnectError BufStream) :
    Except TcpConnectError BufStream :=
  if cfg.peer_negotiation_timeout < dial_elapsed + exchange_elapsed then
    .error .NegotiationPeerTimeout
  else inner

/-- ProxyHttpEscaper::http_connect_tls_connect_to: after the timed CONNECT
negotiation, build the ssl context, hand buf_stream.into_inner() to
SslConnector, and await the handshake under the tls handshake timeout; on
handshake error log one failure record and return
UpstreamTlsHandshakeFailed(cause); on timer expiry log one record and return
UpstreamTlsHandshakeTimeout. The source performs no byte crediting anywhere in
this function, so credits_before_handshake is empty on every path. -/
def http_connect_tls_connect_to
    (negotiated : Except TcpConnectError BufStream)
    (build_ssl_ok : Bool) (outcome : HandshakeOutcome)
    (task_id : Nat) (tls_name : String) (upstream : UpstreamAddr)
    (tls_application : TlsApplication) : TlsConnectOutcome :=
  match negotiated with
  | .error e => ⟨.error e, [], [], []⟩
  | .ok buf_stream =>
    if build_ssl_ok then
      let tls_input := buf_stream.into_inner
      match outcome with
      | .ok => ⟨.ok tls_input, [], tls_input, []⟩
      | .err cause =>
        ⟨.error (.UpstreamTlsHandshakeFailed cause),
         [⟨task_id, tls_name, upstream, tls_application, cause⟩], tls_input, []⟩
      | .timedOut =>
        ⟨.error .UpstreamTlsHandshakeTimeout,
         [⟨task_id, tls_name, upstream, tls_application,
           "upstream tls handshake timed out"⟩], tls_input, []⟩
    else ⟨.error (.InternalTlsClientError "build ssl failed"), [], [], []⟩

/-- ProxyHttpEscaper::http_connect_new_tcp_connection: after the timed CONNECT
negotiation succeeded, take r_buffer_size from the BufReader buffer, credit it
to the task stats, then to each of the user_count user upstream io stats,
install the wrapper stats on the underlying stream, and split the buffered
stream; the returned reader serves the buffered bytes first and only then
reads the socket. -/
def http_connect_new_tcp_connection (buf_stream : BufStream)
    (user_count : Nat) : TcpWrapResult :=
  let r_buffer_size := buf_stream.buffer.length
  { credits := CreditEvent.taskReadBytes r_buffer_size ::
      (List.range user_count).map fun i =>
        CreditEvent.userTcpInBytes i r_buffer_size,
    reader_buffer := buf_stream.buffer,
    reader_socket := buf_stream.inner }

end ProxyHttpEscaper

namespace ProxyFloatHttpsPeer

/-- The config fields the float https peer's http_connect code reads:
peer_negotiation_timeout from the escaper config, the response header size cap
from the peer, and the append headers from the shared config. -/
structure Config where
  peer_negotiation_timeout : Nat
  http_connect_rsp_hdr_max_size : Nat
  append_http_headers : List String
  deriving DecidableEq, Repr

/-- Header construction of ProxyFloatHttpsPeer::http_connect_tcp_connect_to:
the CONNECT request is built from the upstream and the shared-config append
headers and sent as is; no header line is appended dynamically. -/
def http_connect_build_request (append_http_headers : List String)
    (upstream : UpstreamAddr) : HttpConnectRequest :=
  HttpConnectRequest.new upstream append_http_headers

/-- ProxyFloatHttpsPeer::timed_http_connect_tcp_connect_to wraps the whole of
http_connect_tcp_connect_to - which first establishes the proxy leg via
tls_handshake_with (TCP dial plus proxy-leg TLS) and then performs the CONNECT
exchange - in tokio::time::timeout(escaper_config.peer_negotiation_timeout, _),
mapping timer expiry to NegotiationPeerTimeout. -/
def timed_http_connect_tcp_connect_to (cfg : Config)
    (proxy_leg_elapsed exchange_elapsed : Nat)
    (inner : Except TcpConnectError BufStream) :
    Except TcpConnectError BufStream :=
  if cfg.peer_negotiation_timeout < proxy_leg_elapsed + exchange_elapsed then
    .error .NegotiationPeerTimeout
  else inner

/-- ProxyFloatHttpsPeer::http_connect_tls_connect_to: identical in structure
to the ProxyHttpEscaper variant; hands buf_stream.into_inner() to
SslConnector, performs no byte crediting, logs one failure record on
handshake error or timer expiry. -/
def http_connect_tls_connect_to
    (negotiated : Except TcpConnectError BufStream)
    (build_ssl_ok : Bool) (outcome : HandshakeOutcome)
    (task_id : Nat) (tls_name : String) (upstream : UpstreamAddr)
    (tls_application : TlsApplication) : TlsConnectOutcome :=
  match negotiated with
  | .error e => ⟨.error e, [], [], []⟩
  | .ok buf_stream =>
    if build_ssl_ok then
      let tls_input := buf_stream.into_inner
      match outcome with
      | .ok => ⟨.ok tls_input, [], tls_input, []⟩
      | .err cause =>
        ⟨.error (.UpstreamTlsHandshakeFailed cause),
         [⟨task_id, tls_name, upstream, tls_application, cause⟩], tls_input, []⟩
      | .timedOut =>
        ⟨.error .UpstreamTlsHandshakeTimeout,
         [⟨task_id, tls_name, upstream, tls_application,
           "upstream tls handshake timed out"⟩], tls_input, []⟩
    else ⟨.error (.InternalTlsClientError "build ssl failed"), [], [], []⟩

/-- ProxyFloatHttpsPeer::http_connect_new_tls_connection runs the inner
origin-leg TLS handshake through http_connect_tls_connect_to, passing
TlsApplication::TcpStream as the application tag, then wraps the split halves
with the task and user stats. -/
def http_connect_new_tls_connection
    (negotiated : Except TcpConnectError BufStream)
    (build_ssl_ok : Bool) (outcome : HandshakeOutcome)
    (task_id : Nat) (tls_name : String) (upstream : UpstreamAddr) :
    TlsConnectOutcome :=
  http_connect_tls_connect_to negotiated build_ssl_ok outcome task_id tls_name
    upstream TlsApplication.TcpStream

/-- ProxyFloatHttpsPeer::http_connect_new_tcp_connection: after the timed
CONNECT negotiation succeeded, take r_buffer_size from the BufReader buffer,
credit it to the task stats, then to each of the user_count user upstream io
stats, split the buffered stream and wrap the halves; the returned reader
serves the buffered bytes first and only then reads the socket. -/
def http_connect_new_tcp_connection (buf_stream : BufStream)
    (user_count : Nat) : TcpWrapResult :=
  let r_buffer_size := buf_stream.buffer.length
  { credits := CreditEvent.taskReadBytes r_buffer_size ::
      (List.range user_count).map fun i =>
        CreditEvent.userTcpInBytes i r_buffer_size,
    reader_buffer := buf_stream.buffer,
    reader_socket := buf_stream.inner }

end ProxyFloatHttpsPeer

/-- g3_types::stats::TcpIoSnapshot, the pair of u64 byte counters, with the
u64 values represented as naturals. -/
structure TcpIoSnapshot where
  in_bytes : Nat
  out_bytes : Nat
  deriving DecidableEq, Repr

/-- The u64 modulus. -/
def u64Mod : Nat := 2 ^ 64

/-- u64::wrapping_sub on values represented as naturals. -/
def wrapping_sub (a b : Nat) : Nat :=
  (u64Mod + a % u64Mod - b % u64Mod) % u64Mod

/-- One StatsD count emission: metric name and sent value. -/
structure Emission where
  metric : String
  value : Nat
  deriving DecidableEq, Repr

/-- emit_tcp_io_to_statsd of g3proxy/src/stat/metrics/server.rs: return
without emitting anything when the current in_bytes and the snapshot in_bytes
are both zero; otherwise emit the wrapping difference for in_bytes and then
for out_bytes, advancing the snapshot to the current values. -/
def emit_tcp_io_to_statsd (stats snap : TcpIoSnapshot) :
    List Emission × TcpIoSnapshot :=
  if stats.in_bytes = 0 ∧ snap.in_bytes = 0 then ([], snap)
  else
    ([⟨"server.traffic.in.bytes", wrapping_sub stats.in_bytes snap.in_bytes⟩,
      ⟨"server.traffic.out.bytes",
        wrapping_sub stats.out_bytes snap.out_bytes⟩],
     stats)

/-- A sequence of emission rounds: each periodic emit_server_stats call feeds
the current counter reading and the snapshot kept from the previous round
through emit_tcp_io_to_statsd. -/
def emit_tcp_io_seq : List TcpIoSnapshot → TcpIoSnapshot →
    List Emission × TcpIoSnapshot
  | [], snap => ([], snap)
  | stats :: rest, snap =>
    let step := emit_tcp_io_to_statsd stats snap
    let tail := emit_tcp_io_seq rest step.2
    (step.1 ++ tail.1, tail.2)

/-- Sum of the values sent for one metric name. -/
def sumMetric (metric : String) : List Emission → Nat
  | [] => 0
  | e :: es => (if e.metric = metric then e.value else 0) + sumMetric metric es


/-! Helper lemmas. -/

/-- Adding back the wrapping difference recovers the new value mod 2^64. -/
theorem wrapping_sub_add_cancel (a b : Nat) :
    (b + wrapping_sub a b) % u64Mod = a % u64Mod := by
  unfold wrapping_sub u64Mod
  have h : (2 : Nat) ^ 64 = 18446744073709551616 := by norm_num
  rw [h]
  omega

/-- sumMetric distributes over list append. -/
theorem sumMetric_append (metric : String) (xs ys : List Emission) :
    sumMetric metric (xs ++ ys) = sumMetric metric xs + sumMetric metric ys := by
  induction xs with
  | nil => simp [sumMetric]
  | cons e xs ih => simp [sumMetric, ih, Nat.add_assoc]

/-- sumMetric over a cons whose metric matches. -/
theorem sumMetric_cons_self (mtr : String) (v : Nat) (es : List Emission) :
    sumMetric mtr (⟨mtr, v⟩ :: es) = v + sumMetric mtr es := by
  simp [sumMetric]

/-- sumMetric over a cons whose metric differs. -/
theorem sumMetric_cons_ne (mtr mtr2 : String) (h : ¬ mtr2 = mtr) (v : Nat)
    (es : List Emission) :
    sumMetric mtr (⟨mtr2, v⟩ :: es) = sumMetric mtr es := by
  simp [sumMetric, h]

/-- The step equation of emit_tcp_io_to_statsd on the skip branch. -/
theorem emit_tcp_io_to_statsd_skip (stats snap : TcpIoSnapshot)
    (h : stats.in_bytes = 0 ∧ snap.in_bytes = 0) :
    emit_tcp_io_to_statsd stats snap = ([], snap) := by
  simp [emit_tcp_io_to_statsd, h]

/-- The step equation of emit_tcp_io_to_statsd on the emitting branch. -/
theorem emit_tcp_io_to_statsd_emit (stats snap : TcpIoSnapshot)
    (h : ¬(stats.in_bytes = 0 ∧ snap.in_bytes = 0)) :
    emit_tcp_io_to_statsd stats snap =
      ([⟨"server.traffic.in.bytes", wrapping_sub stats.in_bytes snap.in_bytes⟩,
        ⟨"server.traffic.out.bytes",
          wrapping_sub stats.out_bytes snap.out_bytes⟩],
       stats) := by
  simp [emit_tcp_io_to_statsd, h]

/-- Snapshot-difference invariant of the emission sequence: for each counter,
the starting snapshot plus everything emitted equals the final snapshot,
mod 2^64. -/
theorem emit_tcp_io_seq_inv (readings : List TcpIoSnapshot) :
    ∀ snap0 : TcpIoSnapshot,
      ((snap0.in_bytes + sumMetric "server.traffic.in.bytes"
          (emit_tcp_io_seq readings snap0).1) % u64Mod
        = (emit_tcp_io_seq readings snap0).2.in_bytes % u64Mod)
      ∧ ((snap0.out_bytes + sumMetric "server.traffic.out.bytes"
          (emit_tcp_io_seq readings snap0).1) % u64Mod
        = (emit_tcp_io_seq readings snap0).2.out_bytes % u64Mod) := by
  induction readings with
  | nil => intro snap0; simp [emit_tcp_io_seq, sumMetric]
  | cons stats rest ih =>
    intro snap0
    have hseq : emit_tcp_io_seq (stats :: rest) snap0
        = ((emit_tcp_io_to_statsd stats snap0).1 ++
            (emit_tcp_io_seq rest (emit_tcp_io_to_statsd stats snap0).2).1,
           (emit_tcp_io_seq rest (emit_tcp_io_to_statsd stats snap0).2).2) := rfl
    by_cases h : stats.in_bytes = 0 ∧ snap0.in_bytes = 0
    · rw [hseq, emit_tcp_io_to_statsd_skip stats snap0 h]
      simpa using ih snap0
    · have hseq2 : emit_tcp_io_seq (stats :: rest) snap0
          = (⟨"server.traffic.in.bytes",
                wrapping_sub stats.in_bytes snap0.in_bytes⟩ ::
             ⟨"server.traffic.out.bytes",
                wrapping_sub stats.out_bytes snap0.out_bytes⟩ ::
               (emit_tcp_io_seq rest stats).1,
             (emit_tcp_io_seq rest stats).2) := by
        rw [hseq, emit_tcp_io_to_statsd_emit stats snap0 h]
        rfl
      rw [hseq2]
      dsimp only
      have h1 := (ih stats).1
      have h2 := (ih stats).2
      have k1 := wrapping_sub_add_cancel stats.in_bytes snap0.in_bytes
      have k2 := wrapping_sub_add_cancel stats.out_bytes snap0.out_bytes
      rw [sumMetric_cons_self, sumMetric_cons_ne _ _ (by decide),
        sumMetric_cons_ne _ _ (by decide), sumMetric_cons_self]
      constructor
      · unfold u64Mod at *
        omega
      · unfold u64Mod at *
        omega

/-- A list of per-user credits adds nothing to the task sink. -/
theorem creditTaskTotal_map_user (K : Nat) (l : List Nat) :
    creditTaskTotal (l.map fun i => CreditEvent.userTcpInBytes i K) = 0 := by
  induction l with
  | nil => rfl
  | cons a l ih => simp [creditTaskTotal, ih]

/-- creditUserTotal distributes over list append. -/
theorem creditUserTotal_append (i : Nat) (xs ys : List CreditEvent) :
    creditUserTotal i (xs ++ ys)
      = creditUserTotal i xs + creditUserTotal i ys := by
  induction xs with
  | nil => simp [creditUserTotal]
  | cons e xs ih => cases e <;> simp [creditUserTotal, ih, Nat.add_assoc]

/-- Per-user credits over range n add nothing to sink i when n ≤ i. -/
theorem creditUserTotal_range_ge (i K n : Nat) (h : n ≤ i) :
    creditUserTotal i
      ((List.range n).map fun j => CreditEvent.userTcpInBytes j K) = 0 := by
  induction n with
  | zero => rfl
  | succ n ih =>
    rw [List.range_succ, List.map_append, creditUserTotal_append,
      ih (by omega)]
    have hne : n ≠ i := by omega
    simp [creditUserTotal, hne]

/-- Per-user credits over range n add exactly K to sink i when i < n. -/
theorem creditUserTotal_range_lt (i K n : Nat) (h : i < n) :
    creditUserTotal i
      ((List.range n).map fun j => CreditEvent.userTcpInBytes j K) = K := by
  induction n with
  | zero => omega
  | succ n ih =>
    rw [List.range_succ, List.map_append, creditUserTotal_append]
    by_cases h2 : i < n
    · rw [ih h2]
      have hne : n ≠ i := by omega
      simp [creditUserTotal, hne]
    · have he : i = n := by omega
      subst he
      rw [creditUserTotal_range_ge i K i (le_refl i)]
      simp [creditUserTotal]

/-- A list of per-user credits contains no task-sink event. -/
theorem countP_isTask_map_user (K : Nat) (l : List Nat) :
    List.countP CreditEvent.isTask
      (l.map fun i => CreditEvent.userTcpInBytes i K) = 0 := by
  induction l with
  | nil => rfl
  | cons a l ih => simp [List.countP_cons, CreditEvent.isTask, ih]

/-- Per-user credits over range n hit sink i exactly once iff i < n. -/
theorem countP_isUser_range (i K n : Nat) :
    List.countP (CreditEvent.isUser i)
      ((List.range n).map fun j => CreditEvent.userTcpInBytes j K)
      = if i < n then 1 else 0 := by
  induction n with
  | zero => simp
  | succ n ih =>
    rw [List.range_succ, List.map_append, List.countP_append, ih]
    by_cases h2 : i < n
    · have hne : ¬ n = i := by omega
      have hlt : i < n + 1 := by omega
      simp [h2, hlt, List.countP_cons, CreditEvent.isUser, hne]
    · by_cases h3 : i = n
      · subst h3
        simp [h2, List.countP_cons, CreditEvent.isUser]
      · have hge : ¬ i < n + 1 := by omega
        have hne : ¬ n = i := by omega
        simp [h2, hge, List.countP_cons, CreditEvent.isUser, hne]

/-- The shape shared by both http_connect_new_tcp_connection variants: one
task credit of K followed by one credit of K per user sink, totalling exactly
K per sink with exactly one event per sink. -/
theorem residual_credit_list_spec (K n : Nat) :
    creditTaskTotal (CreditEvent.taskReadBytes K ::
        (List.range n).map fun i => CreditEvent.userTcpInBytes i K) = K
    ∧ List.countP CreditEvent.isTask (CreditEvent.taskReadBytes K ::
        (List.range n).map fun i => CreditEvent.userTcpInBytes i K) = 1
    ∧ ∀ i, i < n →
        creditUserTotal i (CreditEvent.taskReadBytes K ::
          (List.range n).map fun j => CreditEvent.userTcpInBytes j K) = K
        ∧ List.countP (CreditEvent.isUser i) (CreditEvent.taskReadBytes K ::
            (List.range n).map fun j => CreditEvent.userTcpInBytes j K) = 1 := by
  refine ⟨?_, ?_, ?_⟩
  · simp [creditTaskTotal, creditTaskTotal_map_user]
  · simp [List.countP_cons, CreditEvent.isTask, countP_isTask_map_user]
  · intro i hi
    constructor
    · simp [creditUserTotal, creditUserTotal_range_lt i K n hi]
    · rw [List.countP_cons, countP_isUser_range]
      simp [CreditEvent.isUser, hi]

/-- Any command line carrying both connection-pool and no-multiplex trips the
declared clap conflict. -/
theorem clap_conflict_rejected_of_both (present : List String)
    (h1 : "connection-pool" ∈ present) (h2 : "no-multiplex" ∈ present) :
    clap_conflict_rejected add_h3_args present = true := by
  unfold clap_conflict_rejected add_h3_args
  rw [List.any_eq_true]
  refine ⟨⟨"connection-pool", ["no-multiplex"]⟩, by simp, ?_⟩
  simp only [Bool.and_eq_true, List.any_eq_true]
  exact ⟨by simpa using h1, "no-multiplex", by simp, by simpa using h2⟩

/-- When connection-pool was absent or supplied as zero, any successful parse
leaves pool_size unset. -/
theorem parse_h3_args_pool_none (m : H3Matches) (a : BenchH3Args)
    (h0 : m.connection_pool = none ∨ m.connection_pool = some 0)
    (ha : parse_h3_args m = .ok a) : a.pool_size = none := by
  obtain ⟨uri, cp, mth, la, nm, oks, tmo, cto⟩ := m
  cases uri with
  | none => simp [parse_h3_args] at ha
  | some u =>
    rcases h0 with h0 | h0 <;> cases h0 <;>
      cases mth <;> cases la <;> cases nm <;> cases oks <;>
      cases tmo <;> cases cto <;>
      (simp only [parse_h3_args, BenchH3Args.new] at ha
       repeat' split at ha
       all_goals simp_all
       all_goals (subst ha
                  rfl))

/-! Claim theorems. -/

/-- C1: the claim states that the buffered reader is handed to the TLS engine
with its residual bytes intact. Evaluating the embedded code at a CONNECT
negotiation that left the five residual bytes HELLO in the buffer shows both
escapers hand only the underlying stream to SslConnector:
BufReader::into_inner drops the buffer, so the TLS engine's input is not the
residual bytes followed by the stream, and the residual bytes are discarded. -/
theorem tls_connect_residual_buffer_discarded :
    (ProxyHttpEscaper.http_connect_tls_connect_to
        (.ok ⟨[72, 69, 76, 76, 79], [22, 3, 1]⟩) true .ok 1 "origin.example"
        ⟨"origin.example", 443⟩ TlsApplication.TcpStream).tls_input
      = [22, 3, 1]
    ∧ (ProxyFloatHttpsPeer.http_connect_tls_connect_to
        (.ok ⟨[72, 69, 76, 76, 79], [22, 3, 1]⟩) true .ok 1 "origin.example"
        ⟨"origin.example", 443⟩ TlsApplication.TcpStream).tls_input
      = [22, 3, 1]
    ∧ ¬ ([22, 3, 1] : List Nat) = [72, 69, 76, 76, 79] ++ [22, 3, 1] :=
  ⟨rfl, rfl, by decide⟩

/-- C2: the claim states that the K residual bytes are credited to the
read-side counters before the origin-TLS handshake starts. Evaluating the
embedded code at a negotiation that left five residual bytes shows neither
escaper's http_connect_tls_connect_to performs any crediting call before the
handshake: the credits trace is empty and its task total is 0, not 5. -/
theorem tls_connect_residual_not_credited :
    (ProxyHttpEscaper.http_connect_tls_connect_to
        (.ok ⟨[72, 69, 76, 76, 79], [22, 3, 1]⟩) true (.err "handshake failed")
        1 "origin.example" ⟨"origin.example", 443⟩
        TlsApplication.TcpStream).credits_before_handshake = []
    ∧ (ProxyFloatHttpsPeer.http_connect_tls_connect_to
        (.ok ⟨[72, 69, 76, 76, 79], [22, 3, 1]⟩) true (.err "handshake failed")
        1 "origin.example" ⟨"origin.example", 443⟩
        TlsApplication.TcpStream).credits_before_handshake = []
    ∧ ¬ creditTaskTotal [] = ([72, 69, 76, 76, 79] : List Nat).length :=
  ⟨rfl, rfl, by decide⟩

/-- C3: in the TCP-through-CONNECT-proxy flow of both escapers, when the
negotiated buffered stream holds K residual bytes at wrap time, the wrap
credits exactly K bytes to the task stats sink and to each per-user sink,
with exactly one crediting event per sink, and the wrap itself performs no
socket read: the returned reader serves the K buffered bytes from memory and
the underlying socket bytes are untouched. -/
theorem http_connect_tcp_residual_credited_exactly_once
    (buf_stream : BufStream) (user_count : Nat) :
    (creditTaskTotal
        (ProxyHttpEscaper.http_connect_new_tcp_connection buf_stream
          user_count).credits
      = buf_stream.buffer.length
    ∧ List.countP CreditEvent.isTask
        (ProxyHttpEscaper.http_connect_new_tcp_connection buf_stream
          user_count).credits = 1
    ∧ (∀ i, i < user_count →
        creditUserTotal i
            (ProxyHttpEscaper.http_connect_new_tcp_connection buf_stream
              user_count).credits
          = buf_stream.buffer.length
        ∧ List.countP (CreditEvent.isUser i)
            (ProxyHttpEscaper.http_connect_new_tcp_connection buf_stream
              user_count).credits = 1)
    ∧ (ProxyHttpEscaper.http_connect_new_tcp_connection buf_stream
          user_count).reader_buffer = buf_stream.buffer
    ∧ (ProxyHttpEscaper.http_connect_new_tcp_connection buf_stream
          user_count).reader_socket = buf_stream.inner)
    ∧ (creditTaskTotal
        (ProxyFloatHttpsPeer.http_connect_new_tcp_connection buf_stream
          user_count).credits
      = buf_stream.buffer.length
    ∧ List.countP CreditEvent.isTask
        (ProxyFloatHttpsPeer.http_connect_new_tcp_connection buf_stream
          user_count).credits = 1
    ∧ (∀ i, i < user_count →
        creditUserTotal i
            (ProxyFloatHttpsPeer.http_connect_new_tcp_connection buf_stream
              user_count).credits
          = buf_stream.buffer.length
        ∧ List.countP (CreditEvent.isUser i)
            (ProxyFloatHttpsPeer.http_connect_new_tcp_connection buf_stream
              user_count).credits = 1)
    ∧ (ProxyFloatHttpsPeer.http_connect_new_tcp_connection buf_stream
          user_count).reader_buffer = buf_stream.buffer
    ∧ (ProxyFloatHttpsPeer.http_connect_new_tcp_connection buf_stream
          user_count).reader_socket = buf_stream.inner) := by
  have h := residual_credit_list_spec buf_stream.buffer.length user_count
  exact ⟨⟨h.1, h.2.1, h.2.2, rfl, rfl⟩, ⟨h.1, h.2.1, h.2.2, rfl, rfl⟩⟩

/-- C3 witness: five residual bytes and two user sinks; the task sink and user
sink 1 each receive exactly five bytes. -/
theorem http_connect_tcp_residual_credited_exactly_once_witness :
    creditTaskTotal
        (ProxyHttpEscaper.http_connect_new_tcp_connection
          ⟨[10, 20, 30, 40, 50], [7]⟩ 2).credits = 5
    ∧ creditUserTotal 1
        (ProxyFloatHttpsPeer.http_connect_new_tcp_connection
          ⟨[10, 20, 30, 40, 50], [7]⟩ 2).credits = 5 :=
  ⟨(http_connect_tcp_residual_credited_exactly_once
      ⟨[10, 20, 30, 40, 50], [7]⟩ 2).1.1,
   ((http_connect_tcp_residual_credited_exactly_once
      ⟨[10, 20, 30, 40, 50], [7]⟩ 2).2.2.2.1 1 (by decide)).1⟩

/-- C4 counterexample: with peer_negotiation_timeout = 5 the negotiation timer
fires when the dial stage alone takes 6 while the CONNECT exchange takes 0, in
both escapers: the timer wraps the whole of http_connect_tcp_connect_to, dial
included, so its budget is shared with the Dial phase, refuting the claim as
stated. -/
theorem negotiation_timer_shared_with_dial_counterexample :
    ProxyHttpEscaper.timed_http_connect_tcp_connect_to ⟨false, 5, 4096, []⟩ 6 0
        (.ok ⟨[], []⟩) = .error .NegotiationPeerTimeout
    ∧ ProxyFloatHttpsPeer.timed_http_connect_tcp_connect_to ⟨5, 4096, []⟩ 6 0
        (.ok ⟨[], []⟩) = .error .NegotiationPeerTimeout :=
  ⟨rfl, rfl⟩

/-- C4 (amended): the HTTP-CONNECT negotiation is bounded by the escaper's own
peer_negotiation_timeout timer - a bound separate from the TLS handshake
timeout - and when the timer fires before the awaited work completes the call
returns NegotiationPeerTimeout; the timed region, however, spans dialing the
proxy (for the float https peer, dial plus proxy-leg TLS) together with the
CONNECT exchange, so the Dial phase draws on the same budget. -/
theorem peer_negotiation_timeout_bounds_connect
    (cfgH : ProxyHttpEscaper.Config) (cfgF : ProxyFloatHttpsPeer.Config)
    (d e : Nat) (inner : Except TcpConnectError BufStream) :
    (cfgH.peer_negotiation_timeout < d + e →
      ProxyHttpEscaper.timed_http_connect_tcp_connect_to cfgH d e inner
        = .error .NegotiationPeerTimeout)
    ∧ (d + e ≤ cfgH.peer_negotiation_timeout →
      ProxyHttpEscaper.timed_http_connect_tcp_connect_to cfgH d e inner
        = inner)
    ∧ (cfgF.peer_negotiation_timeout < d + e →
      ProxyFloatHttpsPeer.timed_http_connect_tcp_connect_to cfgF d e inner
        = .error .NegotiationPeerTimeout)
    ∧ (d + e ≤ cfgF.peer_negotiation_timeout →
      ProxyFloatHttpsPeer.timed_http_connect_tcp_connect_to cfgF d e inner
        = inner) := by
  refine ⟨fun h => ?_, fun h => ?_, fun h => ?_, fun h => ?_⟩
  · simp [ProxyHttpEscaper.timed_http_connect_tcp_connect_to, h]
  · have h2 : ¬ cfgH.peer_negotiation_timeout < d + e := Nat.not_lt.mpr h
    simp [ProxyHttpEscaper.timed_http_connect_tcp_connect_to, h2]
  · simp [ProxyFloatHttpsPeer.timed_http_connect_tcp_connect_to, h]
  · have h2 : ¬ cfgF.peer_negotiation_timeout < d + e := Nat.not_lt.mpr h
    simp [ProxyFloatHttpsPeer.timed_http_connect_tcp_connect_to, h2]

/-- C4 witness: a budget of 10 against 3 + 4 of work lets the inner result
through untouched. -/
theorem peer_negotiation_timeout_bounds_connect_witness :
    ProxyHttpEscaper.timed_http_connect_tcp_connect_to ⟨false, 10, 4096, []⟩ 3 4
        (.ok ⟨[], [1]⟩) = .ok ⟨[], [1]⟩ :=
  (peer_negotiation_timeout_bounds_connect ⟨false, 10, 4096, []⟩ ⟨10, 4096, []⟩
    3 4 (.ok ⟨[], [1]⟩)).2.1 (by decide)

/-- C5: over an established stream, a failed origin handshake returns
UpstreamTlsHandshakeFailed carrying the cause and timer expiry returns
UpstreamTlsHandshakeTimeout, and in both cases exactly one structured failure
record - holding the task id, tls name, tls peer and tls application tag - is
emitted to the failure logger, in both escapers. -/
theorem tls_handshake_failure_error_and_single_log
    (buf : BufStream) (cause : String) (task_id : Nat) (tls_name : String)
    (ups : UpstreamAddr) (app : TlsApplication) :
    ((ProxyHttpEscaper.http_connect_tls_connect_to (.ok buf) true (.err cause)
        task_id tls_name ups app).result
      = .error (.UpstreamTlsHandshakeFailed cause)
    ∧ (ProxyHttpEscaper.http_connect_tls_connect_to (.ok buf) true (.err cause)
        task_id tls_name ups app).logs
      = [⟨task_id, tls_name, ups, app, cause⟩])
    ∧ ((ProxyHttpEscaper.http_connect_tls_connect_to (.ok buf) true .timedOut
        task_id tls_name ups app).result
      = .error .UpstreamTlsHandshakeTimeout
    ∧ (ProxyHttpEscaper.http_connect_tls_connect_to (.ok buf) true .timedOut
        task_id tls_name ups app).logs
      = [⟨task_id, tls_name, ups, app, "upstream tls handshake timed out"⟩])
    ∧ ((ProxyFloatHttpsPeer.http_connect_tls_connect_to (.ok buf) true
        (.err cause) task_id tls_name ups app).result
      = .error (.UpstreamTlsHandshakeFailed cause)
    ∧ (ProxyFloatHttpsPeer.http_connect_tls_connect_to (.ok buf) true
        (.err cause) task_id tls_name ups app).logs
      = [⟨task_id, tls_name, ups, app, cause⟩])
    ∧ ((ProxyFloatHttpsPeer.http_connect_tls_connect_to (.ok buf) true
        .timedOut task_id tls_name ups app).result
      = .error .UpstreamTlsHandshakeTimeout
    ∧ (ProxyFloatHttpsPeer.http_connect_tls_connect_to (.ok buf) true
        .timedOut task_id tls_name ups app).logs
      = [⟨task_id, tls_name, ups, app, "upstream tls handshake timed out"⟩]) :=
  ⟨⟨rfl, rfl⟩, ⟨rfl, rfl⟩, ⟨rfl, rfl⟩, ⟨rfl, rfl⟩⟩

/-- C6 counterexample: a failing inner origin-leg handshake in the float https
peer emits its single failure record tagged TcpStream, and TcpStream is not
OriginLeg, refuting the claim that the record is tagged OriginLeg. -/
theorem inner_tls_failure_tag_counterexample :
    (ProxyFloatHttpsPeer.http_connect_new_tls_connection (.ok ⟨[], [1]⟩) true
        (.err "certificate verify failed") 7 "origin.example"
        ⟨"origin.example", 443⟩).logs
      = [⟨7, "origin.example", ⟨"origin.example", 443⟩,
          TlsApplication.TcpStream, "certificate verify failed"⟩]
    ∧ ¬ TlsApplication.TcpStream = TlsApplication.OriginLeg :=
  ⟨rfl, by decide⟩

/-- C6 (amended): a failure of the inner origin-leg TLS handshake in the
two-TLS-layer float https flow produces exactly one failure record, and its
tls_application tag is TcpStream - the tag http_connect_new_tls_connection
passes - not OriginLeg. -/
theorem inner_tls_failure_record_tagged_tcp_stream
    (buf : BufStream) (cause : String) (task_id : Nat) (tls_name : String)
    (ups : UpstreamAddr) :
    (ProxyFloatHttpsPeer.http_connect_new_tls_connection (.ok buf) true
        (.err cause) task_id tls_name ups).result
      = .error (.UpstreamTlsHandshakeFailed cause)
    ∧ (ProxyFloatHttpsPeer.http_connect_new_tls_connection (.ok buf) true
        (.err cause) task_id tls_name ups).logs
      = [⟨task_id, tls_name, ups, TlsApplication.TcpStream, cause⟩] :=
  ⟨rfl, rfl⟩

/-- C7: the proxy_http negotiator appends the Basic Proxy-Authorization header
exactly when pass_proxy_userid is set and a raw user name is present, and
appends nothing otherwise; the float https negotiator never appends such a
header. -/
theorem connect_proxy_authorization_header_iff
    (cfg : ProxyHttpEscaper.Config) (ups : UpstreamAddr)
    (raw_user_name : Option String) (append_http_headers : List String) :
    ((ProxyHttpEscaper.http_connect_build_request cfg ups
        raw_user_name).dyn_headers
      = match cfg.pass_proxy_userid, raw_user_name with
        | true, some name => [proxy_authorization_basic_pass name]
        | _, _ => [])
    ∧ (¬ (ProxyHttpEscaper.http_connect_build_request cfg ups
          raw_user_name).dyn_headers = []
        ↔ cfg.pass_proxy_userid = true ∧ raw_user_name.isSome = true)
    ∧ (ProxyFloatHttpsPeer.http_connect_build_request append_http_headers
        ups).dyn_headers = [] := by
  obtain ⟨p, t, hm, ah⟩ := cfg
  cases p <;> cases raw_user_name <;>
    simp [ProxyHttpEscaper.http_connect_build_request,
      ProxyFloatHttpsPeer.http_connect_build_request,
      HttpConnectRequest.new, HttpConnectRequest.append_dyn_header]

/-- C7 witness: with the flag set and user alice, the header line is appended. -/
theorem connect_proxy_authorization_header_iff_witness :
    (ProxyHttpEscaper.http_connect_build_request ⟨true, 5, 4096, []⟩
        ⟨"proxy.example", 3128⟩ (some "alice")).dyn_headers
      = [proxy_authorization_basic_pass "alice"] :=
  (connect_proxy_authorization_header_iff ⟨true, 5, 4096, []⟩
    ⟨"proxy.example", 3128⟩ (some "alice") []).1

/-- C8: any command line supplying both connection-pool and no-multiplex trips
the clap conflict declared by add_h3_args: the benchmark entry path returns an
argument error and never yields parsed arguments, so no dial can be
attempted. -/
theorem h3_connection_pool_conflicts_no_multiplex (present : List String)
    (m : H3Matches)
    (h1 : "connection-pool" ∈ present) (h2 : "no-multiplex" ∈ present) :
    clap_conflict_rejected add_h3_args present = true
    ∧ h3_parse_command present m = .error "argument conflict" := by
  have hr := clap_conflict_rejected_of_both present h1 h2
  exact ⟨hr, by simp [h3_parse_command, hr]⟩

/-- C8 witness: a concrete command line with both flags is rejected. -/
theorem h3_connection_pool_conflicts_no_multiplex_witness :
    clap_conflict_rejected add_h3_args
        ["uri", "connection-pool", "no-multiplex"] = true
    ∧ h3_parse_command ["uri", "connection-pool", "no-multiplex"]
        ⟨some ⟨"https"⟩, some 8, none, none, true, none, none, none⟩
      = .error "argument conflict" :=
  h3_connection_pool_conflicts_no_multiplex
    ["uri", "connection-pool", "no-multiplex"]
    ⟨some ⟨"https"⟩, some 8, none, none, true, none, none, none⟩
    (by decide) (by decide)

/-- C9 (amended): every non-skipped emission round sends, for each TCP io
counter, the current value minus the previous-round snapshot computed with
wrapping subtraction mod 2^64, and advances the snapshot to the current
values; a round is skipped outright - neither counter emitted, snapshot left
unchanged - exactly when the current and snapshot in_bytes are both zero.
Consequently, across any sequence of rounds the cumulative emitted deltas of
each counter equal, mod 2^64, the final snapshot value, which is the counter
value as of the last non-skipped round rather than always the live counter
value. -/
theorem emit_tcp_io_wrapping_delta_accounting
    (stats snap snap0 : TcpIoSnapshot) (readings : List TcpIoSnapshot) :
    (stats.in_bytes = 0 ∧ snap.in_bytes = 0 →
      emit_tcp_io_to_statsd stats snap = ([], snap))
    ∧ (¬(stats.in_bytes = 0 ∧ snap.in_bytes = 0) →
      emit_tcp_io_to_statsd stats snap =
        ([⟨"server.traffic.in.bytes",
            wrapping_sub stats.in_bytes snap.in_bytes⟩,
          ⟨"server.traffic.out.bytes",
            wrapping_sub stats.out_bytes snap.out_bytes⟩],
         stats))
    ∧ ((snap0.in_bytes + sumMetric "server.traffic.in.bytes"
          (emit_tcp_io_seq readings snap0).1) % u64Mod
        = (emit_tcp_io_seq readings snap0).2.in_bytes % u64Mod)
    ∧ ((snap0.out_bytes + sumMetric "server.traffic.out.bytes"
          (emit_tcp_io_seq readings snap0).1) % u64Mod
        = (emit_tcp_io_seq readings snap0).2.out_bytes % u64Mod) :=
  ⟨emit_tcp_io_to_statsd_skip stats snap, emit_tcp_io_to_statsd_emit stats snap,
   (emit_tcp_io_seq_inv readings snap0).1, (emit_tcp_io_seq_inv readings snap0).2⟩

/-- C9 counterexample: a round reading in_bytes = 0, out_bytes = 5 against the
zero snapshot is skipped entirely, so nothing is emitted for out_bytes either
and the cumulative emitted out delta (0) is not congruent to the counter's
current value (5) mod 2^64, refuting the claimed running equality. -/
theorem emit_tcp_io_skipped_out_bytes_counterexample :
    (emit_tcp_io_seq [⟨0, 5⟩] ⟨0, 0⟩).1 = []
    ∧ ¬ sumMetric "server.traffic.out.bytes"
          (emit_tcp_io_seq [⟨0, 5⟩] ⟨0, 0⟩).1 % u64Mod
        = (5 : Nat) % u64Mod :=
  ⟨rfl, by decide⟩

/-- C9 witness: a round with counters (3, 4) against snapshot (1, 2) emits the
two wrapping differences and advances the snapshot. -/
theorem emit_tcp_io_wrapping_delta_accounting_witness :
    emit_tcp_io_to_statsd ⟨3, 4⟩ ⟨1, 2⟩ =
      ([⟨"server.traffic.in.bytes", wrapping_sub 3 1⟩,
        ⟨"server.traffic.out.bytes", wrapping_sub 4 2⟩], ⟨3, 4⟩) :=
  (emit_tcp_io_wrapping_delta_accounting ⟨3, 4⟩ ⟨1, 2⟩ ⟨0, 0⟩ []).2.1 (by decide)

/-- C10: a command line carrying --connection-pool 0 parses successfully,
leaves pool_size unset, and produces exactly the same parse result as one
without the option. -/
theorem h3_connection_pool_zero_unset (m : H3Matches)
    (h : m.connection_pool = some 0) :
    parse_h3_args m = parse_h3_args { m with connection_pool := none }
    ∧ (∀ a, parse_h3_args m = .ok a → a.pool_size = none)
    ∧ parse_h3_args ⟨some ⟨"http"⟩, some 0, none, none, false, none, none, none⟩
        = .ok (BenchH3Args.new ⟨"http"⟩) := by
  refine ⟨?_, ?_, ?_⟩
  · obtain ⟨uri, cp, mth, la, nm, oks, tmo, cto⟩ := m
    dsimp only at h
    subst h
    cases uri <;> rfl
  · intro a ha
    exact parse_h3_args_pool_none m a (Or.inr h) ha
  · decide

/-- C10 witness: the concrete parse with pool 0 equals the parse without the
option. -/
theorem h3_connection_pool_zero_unset_witness :
    parse_h3_args ⟨some ⟨"http"⟩, some 0, none, none, false, none, none, none⟩
      = parse_h3_args
          ⟨some ⟨"http"⟩, none, none, none, false, none, none, none⟩ :=
  (h3_connection_pool_zero_unset
    ⟨some ⟨"http"⟩, some 0, none, none, false, none, none, none⟩ rfl).1
